import Mathlib

/-!
Shallow embedding of the x402-solana `human_rpc_sdk` Python package
(files `reiterator.py`, `invoices.py`, `agent.py`) and verification of the
frozen claims about it.

Modelling conventions:
* Python/JSON values are modelled by the inductive `PyVal`; Python `dict`s
  become association lists `List (String × PyVal)` (first binding wins, as
  Python lookup is by key and our inputs are concrete literals).
* Python exceptions are modelled by `Except String`; the string carries the
  message (ASCII quote characters of the original messages are elided).
* Python `float`s are modelled by `Rat`; delays are exact rationals.
* `time.sleep` and logging have no observable effect on the values the
  claims are about and are not modelled.
-/

set_option autoImplicit false

namespace X402

/-- Python/JSON value model. `float` carries an exact rational. -/
inductive PyVal where
  | str : String → PyVal
  | int : Int → PyVal
  | float : Rat → PyVal
  | bool : Bool → PyVal
  | none : PyVal
  | list : List PyVal → PyVal
  | dict : List (String × PyVal) → PyVal

/-- Key lookup in a Python dict (association list). -/
def lookup (d : List (String × PyVal)) (k : String) : Option PyVal :=
  match d with
  | [] => Option.none
  | (k₀, v) :: rest => if k₀ = k then some v else lookup rest k

/-- Python truthiness (`bool(v)`). -/
def pyTruthy : PyVal → Bool
  | .str s => !s.data.isEmpty
  | .int n => n ≠ 0
  | .float q => q ≠ 0
  | .bool b => b
  | .none => false
  | .list l => !l.isEmpty
  | .dict d => !d.isEmpty

/-- Computations that may raise a Python exception. -/
abbrev Py (α : Type) := Except String α

/-- Python `str.lower()` on the character list (character-wise lowering,
as `String.toLower` does, but kernel-reducible). -/
def strLower (s : String) : String :=
  String.mk (s.data.map Char.toLower)

/-- Python `str.upper()` on the character list. -/
def strUpper (s : String) : String :=
  String.mk (s.data.map Char.toUpper)

/-- Python `str.strip()`: drop whitespace from both ends. -/
def strTrim (s : String) : String :=
  String.mk (((s.data.dropWhile Char.isWhitespace).reverse.dropWhile Char.isWhitespace).reverse)

/-- `v.lower()`: defined for strings, raises `AttributeError` otherwise. -/
def pyLower : PyVal → Py String
  | .str s => .ok (strLower s)
  | _ => .error "AttributeError: lower"

/-- `d.get(k, default).lower()` where the default is a string literal. -/
def getLower (d : List (String × PyVal)) (k : String) (dflt : String) : Py String :=
  match lookup d k with
  | Option.none => .ok (strLower dflt)
  | some v => pyLower v

/-- Auxiliary for `mentions`: is `n` a contiguous sublist of the second list? -/
def subList : List Char → List Char → Bool
  | n, [] => n.isEmpty
  | n, c :: rest => n.isPrefixOf (c :: rest) || subList n rest

/-- Substring test (Python `needle in hay`). -/
def mentions (needle hay : String) : Bool :=
  subList needle.data hay.data

/-! ## `reiterator.py` — `ReiteratorManager` -/

/-- `reiterator.py` line 97. -/
def negative_sentiments : List String :=
  ["negative", "reject", "disapprove", "deny", "refuse"]

/-- `reiterator.py` line 98. -/
def negative_decisions : List String :=
  ["reject", "deny", "disapprove", "negative", "no"]

/-- `result.get("approved", True) is False` (`reiterator.py` line 103):
only the literal `False` object passes the identity test. -/
def approved_is_false (r : List (String × PyVal)) : Bool :=
  match lookup r "approved" with
  | some (.bool false) => true
  | _ => false

/-- `ReiteratorManager.should_retry` (`reiterator.py` lines 73–107).
`sentiment` and `decision` are lowered eagerly (lines 93–94), so a
non-string value in either field raises; the `consensus` disjunct is
short-circuited (line 104) and only evaluated when the earlier three
disjuncts are false. -/
def should_retry (max_attempts : Nat) (result : PyVal) (attempt_count : Nat) : Py Bool :=
  if max_attempts ≤ attempt_count then .ok false
  else
    match result with
    | .dict r => do
        let sentiment ← getLower r "sentiment" ""
        let decision ← getLower r "decision" ""
        if sentiment ∈ negative_sentiments then .ok true
        else if decision ∈ negative_decisions then .ok true
        else if approved_is_false r then .ok true
        else do
          let consensus ← getLower r "consensus" "positive"
          .ok (consensus == "negative")
    | _ => .ok false

/-- `ReiteratorManager.calculate_delay` (`reiterator.py` lines 109–130).
The strategy is kept as the raw string, including the dead fallback
branch (lines 125–127). -/
def calculate_delay (backoff_strategy : String) (base_delay max_delay : Rat)
    (attempt_count : Nat) : Rat :=
  let delay : Rat :=
    if backoff_strategy = "fixed" then base_delay
    else if backoff_strategy = "linear" then base_delay * (attempt_count + 1)
    else if backoff_strategy = "exponential" then base_delay * 2 ^ attempt_count
    else base_delay * 2 ^ attempt_count
  min delay max_delay

/-- Configuration of a `ReiteratorManager` (`reiterator.py` lines 23–60). -/
structure ReiteratorManager where
  max_attempts : Nat
  backoff_strategy : String
  base_delay : Rat
  max_delay : Rat

/-- The constructor validation (`reiterator.py` lines 43–55). -/
def ReiteratorManager.valid (m : ReiteratorManager) : Prop :=
  1 ≤ m.max_attempts ∧
  m.backoff_strategy ∈ ["exponential", "linear", "fixed"] ∧
  0 < m.base_delay ∧ m.base_delay ≤ m.max_delay

/-- Outcome of `execute_with_retry`. -/
inductive RetryHalt where
  | success : PyVal → RetryHalt
  /-- `ReiteratorMaxAttemptsError` raised at line 186, embedding the final result. -/
  | maxAttemptsError : PyVal → RetryHalt
  /-- `ReiteratorMaxAttemptsError` raised at line 226 (loop never entered). -/
  | maxAttemptsNoVerdict : RetryHalt
  /-- `ReiteratorRateLimitError` raised at line 212 (task raised on final attempt). -/
  | rateLimitError : String → RetryHalt

/-- Observable outcome of one `execute_with_retry` run: the halt value, the
number of `task_func` invocations, and the number of `total_retries`
increments (the growth of the cumulative session retry counter). -/
structure ExecOutcome where
  halt : RetryHalt
  calls : Nat
  retries : Nat

/-- The `while self.current_attempt < self.max_attempts` loop of
`ReiteratorManager.execute_with_retry` (`reiterator.py` lines 159–228).
`task_func i` is the result of the (i+1)-th invocation (`.error` models the
task raising, which the generic handler at line 207 catches — that handler
also catches an `AttributeError` raised by `should_retry`).  The fuel
argument equals `max_attempts - attempt`; each loop iteration that does not
return increments `attempt`, so the loop runs at most `fuel` times and the
fuel-exhausted branch coincides with the loop-exit raise at line 226. -/
def exec_loop (m : ReiteratorManager) (task_func : Nat → Py PyVal) :
    Nat → Nat → Nat → Nat → ExecOutcome
  | 0, _, calls, retries => ⟨.maxAttemptsNoVerdict, calls, retries⟩
  | fuel + 1, attempt, calls, retries =>
    if attempt < m.max_attempts then
      match task_func calls with
      | .error e =>
          if m.max_attempts ≤ attempt + 1 then
            ⟨.rateLimitError e, calls + 1, retries⟩
          else
            exec_loop m task_func fuel (attempt + 1) (calls + 1) retries
      | .ok result =>
          match should_retry m.max_attempts result attempt with
          | .error e =>
              if m.max_attempts ≤ attempt + 1 then
                ⟨.rateLimitError e, calls + 1, retries⟩
              else
                exec_loop m task_func fuel (attempt + 1) (calls + 1) retries
          | .ok false => ⟨.success result, calls + 1, retries⟩
          | .ok true =>
              if m.max_attempts ≤ attempt + 1 then
                ⟨.maxAttemptsError result, calls + 1, retries + 1⟩
              else
                exec_loop m task_func fuel (attempt + 1) (calls + 1) (retries + 1)
    else ⟨.maxAttemptsNoVerdict, calls, retries⟩

/-- `ReiteratorManager.execute_with_retry` (`reiterator.py` lines 132–231):
start with `current_attempt = 0` (line 154) and no calls or retries yet. -/
def execute_with_retry (m : ReiteratorManager) (task_func : Nat → Py PyVal) : ExecOutcome :=
  exec_loop m task_func m.max_attempts 0 0 0

/-! ## `invoices.py` — `Invoice` -/

/-- `Invoice._parse_invoice_data` (`invoices.py` lines 35–49).  The raw data
is a dict (the constructor annotates `data: Dict[str, Any]`).  The
`accepts` branch requires the value to be truthy and indexes it with `[0]`:
indexing a non-empty list yields its head, indexing a non-empty string
yields its first character (as a one-character string), and indexing any
other truthy value raises. -/
def parse_invoice_data (raw : List (String × PyVal)) : Py PyVal :=
  match lookup raw "invoice" with
  | some inv => .ok inv
  | Option.none =>
    match lookup raw "payment" with
    | some p => .ok p
    | Option.none =>
      match lookup raw "accepts" with
      | some a =>
        if pyTruthy a then
          match a with
          | .list (x :: _) => .ok x
          | .str s => .ok (.str (String.mk (s.data.take 1)))
          | _ => .error "TypeError: object is not subscriptable"
        else .ok (.dict raw)
      | Option.none => .ok (.dict raw)

/-- `Invoice.get_currency` (`invoices.py` lines 131–149): an explicit
`currency` field wins (upper-cased, raising on a non-string); otherwise the
currency is inferred from which optional fields are present, defaulting to
SOL. -/
def get_currency (inv : List (String × PyVal)) : Py String :=
  match lookup inv "currency" with
  | some (.str c) => .ok (strUpper c)
  | some _ => .error "AttributeError: upper"
  | Option.none =>
    if (lookup inv "tokenAccount").isSome ∨ (lookup inv "mint").isSome then .ok "USDC"
    else if (lookup inv "recipientWallet").isSome ∨ (lookup inv "amountSOL").isSome then .ok "SOL"
    else .ok "SOL"

/-- The alias list tried by `Invoice.get_recipient` (`invoices.py` line 123). -/
def recipient_fields : List String := ["recipient", "recipientWallet", "tokenAccount"]

/-- The loop body of `Invoice.get_recipient`: return the first alias whose
value is a string with non-empty strip, skipping the others. -/
def find_recipient (fields : List String) (inv : List (String × PyVal)) : Option String :=
  match fields with
  | [] => Option.none
  | f :: rest =>
    match lookup inv f with
    | some (.str s) => if (strTrim s).data.isEmpty then find_recipient rest inv else some (strTrim s)
    | _ => find_recipient rest inv

/-- `Invoice.get_recipient` (`invoices.py` lines 115–129). -/
def get_recipient (inv : List (String × PyVal)) : Py String :=
  match find_recipient recipient_fields inv with
  | some r => .ok r
  | Option.none => .error "Could not find valid recipient address"

/-- `Invoice.get_mint` (`invoices.py` lines 151–158): `dict.get` with a
`None` default. -/
def get_mint (inv : List (String × PyVal)) : PyVal :=
  (lookup inv "mint").getD .none

/-- `Invoice.get_reference` (`invoices.py` lines 160–167). -/
def get_reference (inv : List (String × PyVal)) : PyVal :=
  (lookup inv "reference").getD .none

/-- `Invoice.get_network` (`invoices.py` lines 169–183): `.lower()` raises
on non-string network/cluster values; the second containment test is
short-circuited by `or`. -/
def get_network (inv : List (String × PyVal)) : Py String := do
  let network := (lookup inv "network").getD (.str "devnet")
  let cluster := (lookup inv "cluster").getD (.str "devnet")
  let nlow ← pyLower network
  if mentions "mainnet" nlow then .ok "mainnet-beta"
  else do
    let clow ← pyLower cluster
    if mentions "mainnet" clow then .ok "mainnet-beta" else .ok "devnet"

/-- Python `int()` applied to a float: truncation toward zero. -/
def pyTruncate (q : Rat) : Int :=
  if 0 ≤ q then q.floor else q.ceil

/-- `Invoice.get_amount_lamports` (`invoices.py` lines 94–113).  A present
but non-numeric `amount` falls through to the `amountSOL` check; Python
`bool` is an `int` instance.  `amountSOL` is converted to lamports by
`int(amount_sol * 1_000_000_000)`. -/
def get_amount_lamports (inv : List (String × PyVal)) : Py Int :=
  match lookup inv "amount" with
  | some (.int n) => .ok n
  | some (.float q) => .ok (pyTruncate q)
  | some (.bool b) => .ok (if b then 1 else 0)
  | _ =>
    match lookup inv "amountSOL" with
    | some (.int n) => .ok (n * 1000000000)
    | some (.float q) => .ok (pyTruncate (q * 1000000000))
    | some (.bool b) => .ok (if b then 1000000000 else 0)
    | _ => .error "Could not determine payment amount"

/-- `Invoice._validate_sol_invoice` (`invoices.py` lines 75–80):
`get_recipient` raises when no alias resolves; the explicit empty-string
branch mirrors the `if not self.get_recipient()` test. -/
def validate_sol (inv : List (String × PyVal)) : Py Unit := do
  let r ← get_recipient inv
  if r.data.isEmpty then .error "SOL invoice must contain recipient or recipientWallet field"
  else .ok ()

/-- `Invoice._validate_spl_invoice` (`invoices.py` lines 82–92). -/
def validate_spl (inv : List (String × PyVal)) : Py Unit := do
  let r ← get_recipient inv
  if r.data.isEmpty then .error "SPL token invoice must contain recipient or tokenAccount field"
  else if !pyTruthy (get_mint inv) then .error "SPL token invoice must contain mint field"
  else .ok ()

/-- `Invoice.validate` (`invoices.py` lines 51–73). -/
def validate (invoice_data : PyVal) : Py Unit :=
  match invoice_data with
  | .dict inv =>
    if (lookup inv "amount").isNone ∧ (lookup inv "amountSOL").isNone then
      .error "Invoice must contain amount or amountSOL field"
    else do
      let currency ← get_currency inv
      if currency = "SOL" then validate_sol inv
      else if currency = "USDC" ∨ currency = "SPL" then validate_spl inv
      else .error ("Unsupported currency: " ++ currency)
  | _ => .error "Invoice data must be a dictionary"

/-- `Invoice.__init__` (`invoices.py` lines 21–33): locate the invoice
payload, validate it immediately, and only then yield the invoice data. -/
def invoice_init (raw : List (String × PyVal)) : Py PyVal := do
  let invoice_data ← parse_invoice_data raw
  let _ ← validate invoice_data
  .ok invoice_data

/-- The normalized payment descriptor of §3 of the spec: the tuple of
getter values an `Invoice` exposes once constructed. -/
structure PaymentDescriptor where
  currency : String
  amountBaseUnits : Int
  recipient : String
  mint : PyVal
  network : String
  reference : PyVal

/-- All descriptor fields of a parsed invoice payload, in the order
`AutoAgent.request` reads them (`agent.py` lines 211–233). -/
def descriptor_of (invoice_data : PyVal) : Py PaymentDescriptor :=
  match invoice_data with
  | .dict inv => do
    let c ← get_currency inv
    let a ← get_amount_lamports inv
    let r ← get_recipient inv
    let n ← get_network inv
    .ok ⟨c, a, r, get_mint inv, n, get_reference inv⟩
  | _ => .error "Invoice data must be a dictionary"

/-- The full parse pipeline: `Invoice(data)` followed by reading every
descriptor field. -/
def parse (raw : List (String × PyVal)) : Py PaymentDescriptor := do
  let invoice_data ← invoice_init raw
  descriptor_of invoice_data

/-! ## `agent.py` — `AutoAgent` -/

/-- An HTTP response as the agent observes it: the status code and the JSON
decoding of the body (`Option.none` when the body is not valid JSON). -/
structure HttpResponse where
  status : Nat
  body : Option PyVal

/-- `parse_invoice_from_response` (`invoices.py` lines 186–204) applied to
a response body: a JSON decode failure is an `InvoiceValidationError`;
a decoded non-dict body fails `Invoice.validate`'s dictionary check. -/
def parse_invoice_response (body : Option PyVal) : Py PaymentDescriptor :=
  match body with
  | Option.none => .error "Invalid JSON in response"
  | some (.dict raw) => parse raw
  | some _ => .error "Invoice data must be a dictionary"

/-- Result of one top-level `AutoAgent.request` call. -/
inductive ReqResult where
  | ok : HttpResponse → ReqResult
  /-- `PaymentError` at `agent.py` line 246: resubmission was again 402. -/
  | paymentRejected : ReqResult
  /-- `PaymentError` at `agent.py` line 259: wrapped parse/build failure. -/
  | paymentProcessingFailed : String → ReqResult

/-- Every non-`ok` outcome of `AutoAgent.request` is a `PaymentError`. -/
def ReqResult.isPaymentError : ReqResult → Bool
  | .ok _ => false
  | .paymentRejected => true
  | .paymentProcessingFailed _ => true

/-- Observable trace of one top-level `AutoAgent.request` call: its result,
how often the wallet/transaction-building collaborator
(`build_payment_transaction`) was invoked, and how many HTTP requests were
issued. -/
structure ReqTrace where
  result : ReqResult
  wallet_calls : Nat
  http_requests : Nat

/-- `AutoAgent.request` (`agent.py` lines 169–264).  `send i` is the
response to the (i+1)-th HTTP request of this top-level call; `build_tx`
is the external wallet/transaction-building collaborator.  On a 402 the
invoice is parsed and every descriptor field read (lines 208–229, all
before the collaborator call); any failure there or in `build_tx` is
wrapped into a `PaymentError` (line 259).  After a successful build the
request is resubmitted exactly once; a second 402 raises `PaymentError`
(line 246), anything else is returned. -/
def agent_request (send : Nat → HttpResponse) (build_tx : PaymentDescriptor → Py String) :
    ReqTrace :=
  let response := send 0
  if response.status = 402 then
    match parse_invoice_response response.body with
    | .error e => ⟨.paymentProcessingFailed e, 0, 1⟩
    | .ok desc =>
      match build_tx desc with
      | .error e => ⟨.paymentProcessingFailed e, 1, 1⟩
      | .ok _tx =>
        let retry_response := send 1
        if retry_response.status = 402 then ⟨.paymentRejected, 1, 2⟩
        else ⟨.ok retry_response, 1, 2⟩
  else ⟨.ok response, 0, 1⟩

/-- What one iteration of the polling loop does with the response it got. -/
inductive PollStep where
  /-- raise `HumanVerificationError`. -/
  | verificationError : String → PollStep
  /-- `time.sleep(poll_interval)` and loop again. -/
  | sleepRetry : PollStep
  /-- return the verdict dictionary. -/
  | done : PyVal → PollStep
  /-- an exception the loop does not catch (e.g. `AttributeError` from
  calling `.get` on a non-dict JSON payload). -/
  | pyError : String → PollStep

/-- One iteration of the `while True` loop of `AutoAgent._poll_task_status`
(`agent.py` lines 558–614), given the response to this iteration's GET:
404 raises immediately (line 571); 5xx sleeps and loops (lines 574–577);
any other non-200 raises (line 579); a JSON decode failure raises
(line 613); on 200, status `completed` with a falsy `result` raises
(line 590), otherwise the verdict dictionary of lines 594–601 is returned;
any other status sleeps and loops (line 608). -/
def poll_step (task_id : String) (resp : HttpResponse) : PollStep :=
  if resp.status = 404 then
    .verificationError ("Task " ++ task_id ++ " not found")
  else if 500 ≤ resp.status ∧ resp.status < 600 then .sleepRetry
  else if resp.status ≠ 200 then
    .verificationError ("Failed to poll task. Status: " ++ toString resp.status)
  else
    match resp.body with
    | Option.none => .verificationError "Failed to parse task response"
    | some (.dict task_data) =>
      match (lookup task_data "status").getD (.str "unknown") with
      | .str status =>
        if status = "completed" then
          let result := (lookup task_data "result").getD (.dict [])
          if !pyTruthy result then .verificationError "Task completed but no result found"
          else
            match result with
            | .dict r => .done (.dict
                [("status", .str "Task Completed"),
                 ("task_id", .str task_id),
                 ("sentiment", (lookup r "sentiment").getD (.str "UNKNOWN")),
                 ("confidence", (lookup r "confidence").getD (.float 0)),
                 ("decision", (lookup r "decision").getD (.str "unknown")),
                 ("result", result)])
            | _ => .pyError "AttributeError: get"
        else .sleepRetry
      | _ => .sleepRetry
    | some _ => .pyError "AttributeError: get"

/-! ## Spec-side characterizations (compared with the code above) -/

/-- The single merged negative vocabulary the spec ascribes to
`isNegative`: "{negative, reject, disapprove, deny, refuse, no}".  The code
instead uses the two distinct lists `negative_sentiments` and
`negative_decisions`. -/
def spec_negative_vocabulary : List String :=
  ["negative", "reject", "disapprove", "deny", "refuse", "no"]

/-- The field named `k`, when present, holds a string (or is absent). -/
def strOrAbsent (r : List (String × PyVal)) (k : String) : Prop :=
  ∀ v, lookup r k = some v → ∃ s, v = PyVal.str s

/-- Total description of `d.get(k, dflt).lower()` on dictionaries whose
`k` field is a string or absent. -/
def lower_field (r : List (String × PyVal)) (k dflt : String) : String :=
  match lookup r k with
  | some (.str s) => strLower s
  | _ => strLower dflt

/-- A task function that returns a negative verdict on every invocation. -/
def constNegativeVerdict : Nat → PyVal :=
  fun _ => .dict [("sentiment", .str "negative")]

/-! ## Helper lemmas -/

@[simp]
theorem py_bind_ok {α β : Type} (a : α) (f : α → Py β) :
    (Except.ok a : Py α) >>= f = f a := rfl

@[simp]
theorem py_bind_error {α β : Type} (e : String) (f : α → Py β) :
    (Except.error e : Py α) >>= f = Except.error e := rfl

/-- On a dictionary whose `k` field is a string or absent,
`d.get(k, dflt).lower()` succeeds and equals `lower_field`. -/
theorem getLower_of_strOrAbsent (r : List (String × PyVal)) (k dflt : String)
    (h : strOrAbsent r k) : getLower r k dflt = .ok (lower_field r k dflt) := by
  unfold getLower lower_field
  cases hl : lookup r k with
  | none => rfl
  | some v =>
    obtain ⟨s, rfl⟩ := h v hl
    rfl

/-- Shared helper: the presence of at least one amount field falsifies the
missing-amount test of `Invoice.validate`. -/
theorem not_missing_amount (inv : List (String × PyVal))
    (hamt : (lookup inv "amount").isSome ∨ (lookup inv "amountSOL").isSome) :
    ¬((lookup inv "amount").isNone ∧ (lookup inv "amountSOL").isNone) := by
  rintro ⟨ha, hb⟩
  rcases hamt with h | h
  · cases hx : lookup inv "amount" <;> rw [hx] at h ha <;> simp_all
  · cases hx : lookup inv "amountSOL" <;> rw [hx] at h hb <;> simp_all

/-! ## Claim theorems -/

/-- C6: for a validly constructed policy (`baseDelay > 0`,
`maxDelay ≥ baseDelay`) and any attempt index `i`, `calculate_delay`
returns `baseDelay` for the fixed strategy, `baseDelay * (i+1)` capped at
`maxDelay` for linear, and `baseDelay * 2^i` capped at `maxDelay` for
exponential; the result is positive and at most `maxDelay` for all three
strategies, and the exponential delay is monotone in `i`. -/
theorem calculate_delay_spec (base maxD : Rat) (i : Nat)
    (hb : 0 < base) (hm : base ≤ maxD) :
    calculate_delay "fixed" base maxD i = base ∧
    calculate_delay "linear" base maxD i = min (base * ((i : Rat) + 1)) maxD ∧
    calculate_delay "exponential" base maxD i = min (base * 2 ^ i) maxD ∧
    (0 < calculate_delay "fixed" base maxD i ∧
      calculate_delay "fixed" base maxD i ≤ maxD) ∧
    (0 < calculate_delay "linear" base maxD i ∧
      calculate_delay "linear" base maxD i ≤ maxD) ∧
    (0 < calculate_delay "exponential" base maxD i ∧
      calculate_delay "exponential" base maxD i ≤ maxD) ∧
    calculate_delay "exponential" base maxD i ≤
      calculate_delay "exponential" base maxD (i + 1) := by
  have hfix : calculate_delay "fixed" base maxD i = min base maxD := rfl
  have hlin : calculate_delay "linear" base maxD i = min (base * ((i : Rat) + 1)) maxD := rfl
  have hexp : ∀ j : Nat, calculate_delay "exponential" base maxD j = min (base * 2 ^ j) maxD :=
    fun _ => rfl
  have hmaxpos : 0 < maxD := lt_of_lt_of_le hb hm
  have hlinpos : 0 < base * ((i : Rat) + 1) := by positivity
  have hexppos : 0 < base * 2 ^ i := by positivity
  refine ⟨?_, hlin, hexp i, ⟨?_, ?_⟩, ⟨?_, ?_⟩, ⟨?_, ?_⟩, ?_⟩
  · rw [hfix, min_eq_left hm]
  · rw [hfix]; exact lt_min hb hmaxpos
  · rw [hfix]; exact min_le_right _ _
  · rw [hlin]; exact lt_min hlinpos hmaxpos
  · rw [hlin]; exact min_le_right _ _
  · rw [hexp i]; exact lt_min hexppos hmaxpos
  · rw [hexp i]; exact min_le_right _ _
  · rw [hexp i, hexp (i + 1)]
    refine min_le_min (mul_le_mul_of_nonneg_left ?_ hb.le) le_rfl
    exact pow_le_pow_right₀ (by norm_num) (Nat.le_succ i)

/-- C6 witness. -/
theorem calculate_delay_spec_witness :
    calculate_delay "fixed" 1 60 3 = 1 ∧
    calculate_delay "linear" 1 60 3 = min (1 * ((3 : Nat) + 1 : Rat)) 60 ∧
    calculate_delay "exponential" 1 60 3 = min (1 * 2 ^ 3) 60 ∧
    (0 < calculate_delay "fixed" 1 60 3 ∧ calculate_delay "fixed" 1 60 3 ≤ 60) ∧
    (0 < calculate_delay "linear" 1 60 3 ∧ calculate_delay "linear" 1 60 3 ≤ 60) ∧
    (0 < calculate_delay "exponential" 1 60 3 ∧ calculate_delay "exponential" 1 60 3 ≤ 60) ∧
    calculate_delay "exponential" 1 60 3 ≤ calculate_delay "exponential" 1 60 (3 + 1) :=
  calculate_delay_spec 1 60 3 (by norm_num) (by norm_num)

/-- C10: an invoice whose explicit `currency` field upper-cases to
something outside SOL / USDC / SPL is rejected by `validate` with an
"Unsupported currency" error whenever at least one amount field is
present (so regardless of whether amount and recipient resolve). -/
theorem unsupported_currency_rejected (inv : List (String × PyVal)) (c : String)
    (hamt : (lookup inv "amount").isSome ∨ (lookup inv "amountSOL").isSome)
    (hcur : lookup inv "currency" = some (.str c))
    (h1 : strUpper c ≠ "SOL") (h2 : strUpper c ≠ "USDC") (h3 : strUpper c ≠ "SPL") :
    validate (.dict inv) = .error ("Unsupported currency: " ++ strUpper c) := by
  have hcond : ¬((lookup inv "amount").isNone ∧ (lookup inv "amountSOL").isNone) :=
    not_missing_amount inv hamt
  have hc : get_currency inv = .ok (strUpper c) := by
    unfold get_currency; rw [hcur]
  simp only [validate, if_neg hcond, hc, py_bind_ok]
  rw [if_neg h1, if_neg (by rintro (h | h) <;> [exact h2 h; exact h3 h])]

/-- C10 witness. -/
theorem unsupported_currency_rejected_witness :
    validate (.dict [("amount", .int 5), ("recipient", .str "abc"), ("currency", .str "eur")]) =
      .error ("Unsupported currency: " ++ strUpper "eur") :=
  unsupported_currency_rejected _ "eur" (Or.inl rfl) rfl
    (by decide) (by decide) (by decide)

/-- C8: `Invoice.validate` rejects, with an error naming the offending
field, (a) any invoice lacking both amount fields (message mentions
"amount"), (b) any SOL invoice lacking every recipient alias (message
mentions "recipient"), and (c) any token (USDC/SPL) invoice with a
resolvable recipient but no `mint` key (message mentions "mint").
`Invoice.__init__` runs `validate` before returning (see `invoice_init`),
so construction fails immediately in each case. -/
theorem invoice_missing_field_rejection :
    (∀ inv : List (String × PyVal),
      lookup inv "amount" = Option.none → lookup inv "amountSOL" = Option.none →
      ∃ msg, validate (.dict inv) = .error msg ∧ mentions "amount" msg = true) ∧
    (∀ inv : List (String × PyVal),
      (lookup inv "amount").isSome ∨ (lookup inv "amountSOL").isSome →
      get_currency inv = .ok "SOL" →
      lookup inv "recipient" = Option.none → lookup inv "recipientWallet" = Option.none →
      lookup inv "tokenAccount" = Option.none →
      ∃ msg, validate (.dict inv) = .error msg ∧ mentions "recipient" msg = true) ∧
    (∀ (inv : List (String × PyVal)) (c r : String),
      (lookup inv "amount").isSome ∨ (lookup inv "amountSOL").isSome →
      get_currency inv = .ok c → (c = "USDC" ∨ c = "SPL") →
      get_recipient inv = .ok r → r.data.isEmpty = false →
      lookup inv "mint" = Option.none →
      ∃ msg, validate (.dict inv) = .error msg ∧ mentions "mint" msg = true) := by
  refine ⟨?_, ?_, ?_⟩
  · intro inv h1 h2
    refine ⟨"Invoice must contain amount or amountSOL field", ?_, by rfl⟩
    simp [validate, h1, h2]
  · intro inv hamt hcur hr1 hr2 hr3
    refine ⟨"Could not find valid recipient address", ?_, by rfl⟩
    simp only [validate, if_neg (not_missing_amount inv hamt), hcur, py_bind_ok,
      validate_sol, get_recipient, find_recipient, recipient_fields,
      hr1, hr2, hr3, py_bind_error]
    simp
  · intro inv c r hamt hcur hc hrec hr hmint
    refine ⟨"SPL token invoice must contain mint field", ?_, by rfl⟩
    have hmm : pyTruthy (get_mint inv) = false := by
      simp [get_mint, hmint, pyTruthy]
    rcases hc with rfl | rfl <;>
      simp only [validate, if_neg (not_missing_amount inv hamt), hcur, py_bind_ok,
        validate_spl, hrec, hr, hmm] <;>
      simp

/-- C8 witness: one concrete instance of each of the three rejections. -/
theorem invoice_missing_field_rejection_witness :
    (∃ msg, validate (.dict [("recipient", .str "abc")]) = .error msg ∧
      mentions "amount" msg = true) ∧
    (∃ msg, validate (.dict [("amount", .int 5)]) = .error msg ∧
      mentions "recipient" msg = true) ∧
    (∃ msg, validate (.dict [("amount", .int 5), ("currency", .str "USDC"),
        ("recipient", .str "abc")]) = .error msg ∧
      mentions "mint" msg = true) :=
  ⟨invoice_missing_field_rejection.1 _ rfl rfl,
   invoice_missing_field_rejection.2.1 _ (Or.inl rfl) rfl rfl rfl rfl,
   invoice_missing_field_rejection.2.2 _ "USDC" "abc" (Or.inl rfl) rfl (Or.inl rfl)
     rfl rfl rfl⟩

/-- C7: the four supported envelope shapes of a well-formed invoice object
`I` — the object wrapped under "invoice", under "payment", as the first
element under "accepts", or passed directly — all parse to the very same
`PaymentDescriptor` (the hypotheses say `I` carries no envelope key of its
own, so the direct shape is unambiguous; the equality holds for every such
`I`, in particular the well-formed ones where parsing succeeds). -/
theorem invoice_envelope_roundtrip (I : List (String × PyVal))
    (h1 : lookup I "invoice" = Option.none)
    (h2 : lookup I "payment" = Option.none)
    (h3 : lookup I "accepts" = Option.none) :
    parse [("invoice", .dict I)] = parse I ∧
    parse [("payment", .dict I)] = parse I ∧
    parse [("accepts", .list [.dict I])] = parse I := by
  have hdir : parse_invoice_data I = .ok (.dict I) := by
    simp [parse_invoice_data, h1, h2, h3]
  have e1 : parse_invoice_data [("invoice", .dict I)] = .ok (.dict I) := rfl
  have e2 : parse_invoice_data [("payment", .dict I)] = .ok (.dict I) := rfl
  have e3 : parse_invoice_data [("accepts", .list [.dict I])] = .ok (.dict I) := rfl
  refine ⟨?_, ?_, ?_⟩ <;> unfold parse invoice_init
  · rw [e1, hdir]
  · rw [e2, hdir]
  · rw [e3, hdir]

/-- C7 witness. -/
theorem invoice_envelope_roundtrip_witness :
    parse [("invoice", .dict [("amount", .int 5), ("recipient", .str "abc")])] =
      parse [("amount", .int 5), ("recipient", .str "abc")] ∧
    parse [("payment", .dict [("amount", .int 5), ("recipient", .str "abc")])] =
      parse [("amount", .int 5), ("recipient", .str "abc")] ∧
    parse [("accepts", .list [.dict [("amount", .int 5), ("recipient", .str "abc")]])] =
      parse [("amount", .int 5), ("recipient", .str "abc")] :=
  invoice_envelope_roundtrip _ rfl rfl rfl

/-- C2: when the initial response is 402 and the resubmission is again
402, `AutoAgent.request` fails with a `PaymentError` (either the explicit
payment-rejected error or a wrapped processing failure), the
wallet/transaction-building collaborator is invoked at most once, and at
most one resubmission is attempted (at most two HTTP requests in total):
the payment/retry cycle never loops. -/
theorem agent_request_one_shot (send : Nat → HttpResponse)
    (build_tx : PaymentDescriptor → Py String)
    (h0 : (send 0).status = 402) (h1 : (send 1).status = 402) :
    (agent_request send build_tx).result.isPaymentError = true ∧
    (agent_request send build_tx).wallet_calls ≤ 1 ∧
    (agent_request send build_tx).http_requests ≤ 2 := by
  unfold agent_request
  cases hp : parse_invoice_response (send 0).body with
  | error e => simp [h0, h1, hp, ReqResult.isPaymentError]
  | ok d =>
    cases hb : build_tx d with
    | error e => simp [h0, h1, hp, hb, ReqResult.isPaymentError]
    | ok tx => simp [h0, h1, hp, hb, ReqResult.isPaymentError]

/-- C2 witness: a 402/402 exchange around a parseable invoice and a
successful transaction build. -/
theorem agent_request_one_shot_witness :
    (agent_request
        (fun _ => ⟨402, some (.dict [("amount", .int 5), ("recipient", .str "abc")])⟩)
        (fun _ => Except.ok "tx")).result.isPaymentError = true ∧
    (agent_request
        (fun _ => ⟨402, some (.dict [("amount", .int 5), ("recipient", .str "abc")])⟩)
        (fun _ => Except.ok "tx")).wallet_calls ≤ 1 ∧
    (agent_request
        (fun _ => ⟨402, some (.dict [("amount", .int 5), ("recipient", .str "abc")])⟩)
        (fun _ => Except.ok "tx")).http_requests ≤ 2 :=
  agent_request_one_shot _ _ rfl rfl

/-- C9: per polling iteration — 404 raises `VerificationError` ("task not
found") immediately; 5xx only sleeps and loops; any other non-200 raises
immediately; a 200 whose status is "completed" but whose result is missing
or empty raises rather than returning a verdict. -/
theorem poll_step_classification (task_id : String) (resp : HttpResponse) :
    (resp.status = 404 →
      poll_step task_id resp =
        .verificationError ("Task " ++ task_id ++ " not found")) ∧
    (500 ≤ resp.status → resp.status < 600 →
      poll_step task_id resp = .sleepRetry) ∧
    (resp.status ≠ 404 → resp.status ≠ 200 → ¬(500 ≤ resp.status ∧ resp.status < 600) →
      poll_step task_id resp =
        .verificationError ("Failed to poll task. Status: " ++ toString resp.status)) ∧
    (∀ task_data : List (String × PyVal), resp.status = 200 →
      resp.body = some (.dict task_data) →
      lookup task_data "status" = some (.str "completed") →
      (lookup task_data "result" = Option.none ∨
        lookup task_data "result" = some (.dict []) ∨
        lookup task_data "result" = some PyVal.none) →
      poll_step task_id resp =
        .verificationError "Task completed but no result found") := by
  refine ⟨?_, ?_, ?_, ?_⟩
  · intro h
    simp [poll_step, h]
  · intro h5 h6
    unfold poll_step
    rw [if_neg (by omega), if_pos ⟨h5, h6⟩]
  · intro h404 h200 h5xx
    unfold poll_step
    rw [if_neg h404, if_neg h5xx, if_pos h200]
  · intro task_data h200 hbody hst hres
    rcases hres with h | h | h <;>
      simp [poll_step, h200, hbody, hst, h, pyTruthy]

/-- C9 witness: one concrete response per classified case. -/
theorem poll_step_classification_witness :
    poll_step "t1" ⟨404, Option.none⟩ =
      .verificationError ("Task " ++ "t1" ++ " not found") ∧
    poll_step "t1" ⟨503, Option.none⟩ = .sleepRetry ∧
    poll_step "t1" ⟨301, Option.none⟩ =
      .verificationError ("Failed to poll task. Status: " ++ toString (301 : Nat)) ∧
    poll_step "t1" ⟨200, some (.dict [("status", .str "completed")])⟩ =
      .verificationError "Task completed but no result found" :=
  ⟨(poll_step_classification "t1" ⟨404, Option.none⟩).1 rfl,
   (poll_step_classification "t1" ⟨503, Option.none⟩).2.1 (by norm_num) (by norm_num),
   (poll_step_classification "t1" ⟨301, Option.none⟩).2.2.1
     (by norm_num) (by norm_num) (by norm_num),
   (poll_step_classification "t1" _).2.2.2 [("status", .str "completed")] rfl rfl rfl
     (Or.inl rfl)⟩

/-- Helper for C1: when every verdict produced so far is negative, the
retry loop runs its fuel down to zero, counting one call and one
`total_retries` increment per iteration, and halts with
`ReiteratorMaxAttemptsError` embedding the final verdict. -/
theorem exec_loop_all_negative (m : ReiteratorManager) (v : Nat → PyVal)
    (hneg : ∀ i, i < m.max_attempts →
      should_retry m.max_attempts (v i) i = .ok true) :
    ∀ fuel attempt retries, attempt + fuel = m.max_attempts → attempt < m.max_attempts →
      exec_loop m (fun i => .ok (v i)) fuel attempt attempt retries =
        ⟨.maxAttemptsError (v (m.max_attempts - 1)), m.max_attempts, retries + fuel⟩ := by
  intro fuel
  induction fuel with
  | zero => intro attempt retries hsum hlt; omega
  | succ fuel ih =>
    intro attempt retries hsum hlt
    rw [exec_loop, if_pos hlt]
    simp only [hneg attempt hlt]
    by_cases hend : m.max_attempts ≤ attempt + 1
    · rw [if_pos hend]
      have h3 : fuel = 0 := by omega
      subst h3
      rw [show attempt = m.max_attempts - 1 by omega]
      have h2 : m.max_attempts - 1 + 1 = m.max_attempts := by omega
      rw [h2]
    · rw [if_neg hend, ih (attempt + 1) (retries + 1) (by omega) (by omega)]
      have h4 : retries + 1 + fuel = retries + (fuel + 1) := by omega
      rw [h4]

/-- C1 (amended): with a validly constructed policy (`maxAttempts ≥ 1`)
and a task function returning a negative verdict on every attempt,
`execute_with_retry` calls the task exactly `maxAttempts` times, halts
with `ReiteratorMaxAttemptsError` embedding the final verdict, and the
cumulative `total_retries` counter grows by exactly `maxAttempts` (one
increment per negative verdict, including the final one) — not by
`maxAttempts - 1`. -/
theorem execute_with_retry_exhaustion (m : ReiteratorManager) (v : Nat → PyVal)
    (hmax : 1 ≤ m.max_attempts)
    (hneg : ∀ i, i < m.max_attempts →
      should_retry m.max_attempts (v i) i = .ok true) :
    execute_with_retry m (fun i => .ok (v i)) =
      ⟨.maxAttemptsError (v (m.max_attempts - 1)), m.max_attempts, m.max_attempts⟩ := by
  unfold execute_with_retry
  have h := exec_loop_all_negative m v hneg m.max_attempts 0 0 (by omega) (by omega)
  rw [h, Nat.zero_add]

/-- C1 witness for the amended theorem: three always-negative attempts. -/
theorem execute_with_retry_exhaustion_witness :
    execute_with_retry ⟨3, "exponential", 1, 60⟩
        (fun i => Except.ok (constNegativeVerdict i)) =
      ⟨.maxAttemptsError (constNegativeVerdict 2), 3, 3⟩ :=
  execute_with_retry_exhaustion ⟨3, "exponential", 1, 60⟩ constNegativeVerdict
    (by norm_num) (by intro i hi; interval_cases i <;> rfl)

/-- C1 counterexample to the claim as stated: with `maxAttempts = 1` and
an always-negative task, the run performs one call and increments the
cumulative retry counter by 1, while the claim predicts an increase of
`maxAttempts - 1 = 0`. -/
theorem exhaustion_retry_count_counterexample :
    (execute_with_retry ⟨1, "exponential", 1, 60⟩
        (fun i => Except.ok (constNegativeVerdict i))).retries = 1 ∧
    (1 : Nat) - 1 = 0 ∧ (1 : Nat) ≠ 0 :=
  ⟨rfl, rfl, by decide⟩

/-- Helper for C5: while the produced verdicts are negative the loop
advances one attempt per iteration, and a non-negative verdict on call
`k` (1-indexed) makes it return that verdict after exactly `k` calls. -/
theorem exec_loop_short_circuit (m : ReiteratorManager) (v : Nat → PyVal) (k : Nat)
    (hk1 : 1 ≤ k) (hk2 : k ≤ m.max_attempts)
    (hneg : ∀ i, i < k - 1 → should_retry m.max_attempts (v i) i = .ok true)
    (hpos : should_retry m.max_attempts (v (k - 1)) (k - 1) = .ok false) :
    ∀ fuel attempt retries, attempt + fuel = m.max_attempts → attempt ≤ k - 1 →
      exec_loop m (fun i => .ok (v i)) fuel attempt attempt retries =
        ⟨.success (v (k - 1)), k, retries + (k - 1 - attempt)⟩ := by
  intro fuel
  induction fuel with
  | zero => intro attempt retries hsum hle; omega
  | succ fuel ih =>
    intro attempt retries hsum hle
    have hlt : attempt < m.max_attempts := by omega
    rw [exec_loop, if_pos hlt]
    by_cases hat : attempt = k - 1
    · subst hat
      simp only [hpos]
      have h1 : k - 1 + 1 = k := by omega
      have h2 : k - 1 - (k - 1) = 0 := by omega
      rw [h1, h2, Nat.add_zero]
    · have hneg1 : should_retry m.max_attempts (v attempt) attempt = .ok true :=
        hneg attempt (by omega)
      simp only [hneg1]
      rw [if_neg (by omega), ih (attempt + 1) (retries + 1) (by omega) (by omega)]
      have h4 : retries + 1 + (k - 1 - (attempt + 1)) = retries + (k - 1 - attempt) := by
        omega
      rw [h4]

/-- C5: if the task returns negative verdicts on its first `k - 1`
invocations and a non-negative verdict on the `k`-th (`1 ≤ k ≤
maxAttempts`), `execute_with_retry` calls the task exactly `k` times and
returns that `k`-th verdict (having counted `k - 1` retries). -/
theorem execute_with_retry_short_circuit (m : ReiteratorManager) (v : Nat → PyVal)
    (k : Nat) (hk1 : 1 ≤ k) (hk2 : k ≤ m.max_attempts)
    (hneg : ∀ i, i < k - 1 → should_retry m.max_attempts (v i) i = .ok true)
    (hpos : should_retry m.max_attempts (v (k - 1)) (k - 1) = .ok false) :
    execute_with_retry m (fun i => .ok (v i)) =
      ⟨.success (v (k - 1)), k, k - 1⟩ := by
  unfold execute_with_retry
  have := exec_loop_short_circuit m v k hk1 hk2 hneg hpos m.max_attempts 0 0
    (by omega) (by omega)
  rw [this]
  have : 0 + (k - 1 - 0) = k - 1 := by omega
  rw [this]

/-- C5 witness: negative, negative, then positive, with `maxAttempts = 3`:
three calls, the third verdict is returned. -/
theorem execute_with_retry_short_circuit_witness :
    execute_with_retry ⟨3, "exponential", 1, 60⟩
        (fun i => Except.ok (if i < 2 then constNegativeVerdict i
          else .dict [("sentiment", .str "positive")])) =
      ⟨.success (if (2 : Nat) < 2 then constNegativeVerdict 2
          else .dict [("sentiment", .str "positive")]), 3, 2⟩ :=
  execute_with_retry_short_circuit ⟨3, "exponential", 1, 60⟩ _ 3
    (by norm_num) (by norm_num)
    (by intro i hi; interval_cases i <;> rfl) rfl

/-- Helper: at or past the attempt bound `should_retry` returns `false`
(`reiterator.py` lines 85–86). -/
theorem should_retry_capped (ma : Nat) (v : PyVal) (a : Nat) (h : ma ≤ a) :
    should_retry ma v a = .ok false := by
  unfold should_retry
  rw [if_pos h]

/-- Helper: `should_retry` on a dictionary below the attempt bound
reduces to the negativity test of `reiterator.py` lines 89–107. -/
theorem should_retry_dict (ma : Nat) (r : List (String × PyVal)) (a : Nat)
    (h : ¬ ma ≤ a) :
    should_retry ma (.dict r) a = (do
      let sentiment ← getLower r "sentiment" ""
      let decision ← getLower r "decision" ""
      if sentiment ∈ negative_sentiments then .ok true
      else if decision ∈ negative_decisions then .ok true
      else if approved_is_false r then .ok true
      else do
        let consensus ← getLower r "consensus" "positive"
        .ok (consensus == "negative")) := by
  unfold should_retry
  rw [if_neg h]

/-- C3 counterexample to the claim as stated: "no" and "refuse" are both
in the spec's merged negative vocabulary, yet a verdict whose sentiment is
"no" and a verdict whose decision is "refuse" are not treated as negative
(the code keeps separate sentiment and decision lists: the sentiment list
lacks "no" and the decision list lacks "refuse"). -/
theorem negative_vocabulary_counterexample :
    ("no" ∈ spec_negative_vocabulary ∧
      should_retry 3 (.dict [("sentiment", .str "no")]) 0 = .ok false) ∧
    ("refuse" ∈ spec_negative_vocabulary ∧
      should_retry 3 (.dict [("decision", .str "refuse")]) 0 = .ok false) :=
  ⟨⟨by decide, rfl⟩, ⟨by decide, rfl⟩⟩

/-- C3 (amended): on dictionaries whose sentiment/decision/consensus
fields are strings or absent, a verdict is retried exactly when the
attempt bound is not reached and the lowered sentiment matches
{negative, reject, disapprove, deny, refuse}, or the lowered decision
matches {reject, deny, disapprove, negative, no}, or the `approved` field
is the literal `False`, or the lowered consensus equals "negative". -/
theorem should_retry_negative_characterization (ma a : Nat)
    (r : List (String × PyVal))
    (hs : strOrAbsent r "sentiment") (hd : strOrAbsent r "decision")
    (hc : strOrAbsent r "consensus") :
    should_retry ma (.dict r) a = .ok true ↔
      (a < ma ∧ (lower_field r "sentiment" "" ∈ negative_sentiments ∨
        lower_field r "decision" "" ∈ negative_decisions ∨
        approved_is_false r = true ∨
        lower_field r "consensus" "positive" = "negative")) := by
  by_cases hma : ma ≤ a
  · rw [should_retry_capped ma _ a hma]
    constructor
    · intro h
      exact absurd (Except.ok.inj h) (by decide)
    · rintro ⟨hlt, _⟩
      omega
  · have halt : a < ma := by omega
    rw [should_retry_dict ma r a hma, getLower_of_strOrAbsent r "sentiment" "" hs,
        getLower_of_strOrAbsent r "decision" "" hd]
    simp only [py_bind_ok]
    split_ifs with h1 h2 h3
    · simp [halt, h1]
    · simp [halt, h1, h2]
    · simp [halt, h1, h2, h3]
    · rw [getLower_of_strOrAbsent r "consensus" "positive" hc]
      simp only [py_bind_ok]
      simp [halt, h1, h2, h3]

/-- C3 witness for the amended theorem: a verdict whose decision is "no"
is negative. -/
theorem should_retry_negative_characterization_witness :
    should_retry 3 (.dict [("decision", .str "no")]) 0 = .ok true ↔
      (0 < 3 ∧
        (lower_field [("decision", .str "no")] "sentiment" "" ∈ negative_sentiments ∨
         lower_field [("decision", .str "no")] "decision" "" ∈ negative_decisions ∨
         approved_is_false [("decision", .str "no")] = true ∨
         lower_field [("decision", .str "no")] "consensus" "positive" = "negative")) :=
  should_retry_negative_characterization 3 0 [("decision", .str "no")]
    (by intro v hv; exact Option.noConfusion hv)
    (by intro v hv; exact ⟨"no", by cases hv; rfl⟩)
    (by intro v hv; exact Option.noConfusion hv)

/-- C4 counterexample to the claim as stated: a dictionary verdict whose
`sentiment` field holds a non-string value makes the predicate raise
(`AttributeError` from `.lower()`) instead of returning a boolean. -/
theorem should_retry_nonstring_raises :
    should_retry 3 (.dict [("sentiment", .int 1)]) 0 =
      .error "AttributeError: lower" := rfl

/-- C4 (amended): the predicate is total — returning a boolean, never
raising — on every non-dictionary verdict (where it yields `false`) and on
every dictionary whose sentiment/decision/consensus fields, when present,
are strings; it is not total when one of those fields holds a non-string
value. -/
theorem should_retry_totality :
    (∀ (ma a : Nat) (v : PyVal), (∀ r, v ≠ PyVal.dict r) →
      should_retry ma v a = .ok false) ∧
    (∀ (ma a : Nat) (r : List (String × PyVal)),
      strOrAbsent r "sentiment" → strOrAbsent r "decision" →
      strOrAbsent r "consensus" →
      ∃ b, should_retry ma (.dict r) a = .ok b) := by
  constructor
  · intro ma a v hv
    by_cases hma : ma ≤ a
    · exact should_retry_capped ma v a hma
    · unfold should_retry
      rw [if_neg hma]
      cases v with
      | dict r => exact absurd rfl (hv r)
      | str s => rfl
      | int n => rfl
      | float q => rfl
      | bool b => rfl
      | none => rfl
      | list l => rfl
  · intro ma a r hs hd hc
    by_cases hma : ma ≤ a
    · exact ⟨false, should_retry_capped ma _ a hma⟩
    · rw [should_retry_dict ma r a hma, getLower_of_strOrAbsent r "sentiment" "" hs,
          getLower_of_strOrAbsent r "decision" "" hd]
      simp only [py_bind_ok]
      split_ifs with h1 h2 h3
      · exact ⟨true, rfl⟩
      · exact ⟨true, rfl⟩
      · exact ⟨true, rfl⟩
      · rw [getLower_of_strOrAbsent r "consensus" "positive" hc]
        simp only [py_bind_ok]
        exact ⟨_, rfl⟩

/-- C4 witness: a non-dictionary verdict yields `false`, and a dictionary
with string fields yields some boolean. -/
theorem should_retry_totality_witness :
    should_retry 3 (.str "oops") 0 = .ok false ∧
    ∃ b, should_retry 3 (.dict [("decision", .str "no")]) 0 = .ok b :=
  ⟨should_retry_totality.1 3 0 (.str "oops") (fun r h => PyVal.noConfusion h),
   should_retry_totality.2 3 0 [("decision", .str "no")]
     (by intro v hv; exact Option.noConfusion hv)
     (by intro v hv; exact ⟨"no", by cases hv; rfl⟩)
     (by intro v hv; exact Option.noConfusion hv)⟩

end X402
